import Mathlib

/-!
Verification of the Accord synchronization engine (github.com/Ssawa/Accord).

This file gives a shallow embedding, in Lean 4, of the parts of the engine
that the specification's testable properties talk about:

* `Message` and its gob-based wire encoding (`Message.Serialize`,
  `DeserializeMessage`);
* the durable `State` counter (`StateDB.Update`, from state.go's older
  revision preserved in the repository, plus the current pointer-taking
  variant asserted by `TestStateUpdate`);
* the outbound `SyncQueue` (FIFO over serialized messages);
* the orchestrator operations `HandleNewMessage`, `HandleRemoteMessage`,
  `CheckRemoteState`, `Status` from accord.go;
* the `PollListener` receive-state step from poll_listener.go;
* the `ComponentRunner.Stop` guard from component.go.

Machine integers (uint64) are embedded as `Nat` with explicit `% 2^64`
where Go's wraparound matters.  Fallible disk writes are embedded as an
explicit boolean success parameter, so each theorem can quantify over both
outcomes.  Side-effect traces (which Manager callbacks were invoked, with
which arguments) are returned explicitly by the orchestrator embeddings.
-/

namespace Accord

/-- 64-bit modulus used by Go's uint64 arithmetic. -/
def U64 : Nat := 2 ^ 64

/-- Little-endian base-256 encoding of `n` into exactly `k` bytes, as done
by `binary.LittleEndian.PutUint64` (for `k = 8`). -/
def encodeLE : Nat → Nat → List Nat
  | 0, _ => []
  | k + 1, n => n % 256 :: encodeLE k (n / 256)

/-- Little-endian base-256 decoding, as done by
`binary.LittleEndian.Uint64`. -/
def decodeLE : List Nat → Nat
  | [] => 0
  | b :: bs => b + 256 * decodeLE bs

theorem encodeLE_length (k n : Nat) : (encodeLE k n).length = k := by
  induction k generalizing n with
  | zero => rfl
  | succ k ih => simp [encodeLE, ih]

theorem decodeLE_encodeLE (k n : Nat) : decodeLE (encodeLE k n) = n % 256 ^ k := by
  induction k generalizing n with
  | zero => simp [encodeLE, decodeLE, Nat.mod_one]
  | succ k ih =>
      simp only [encodeLE, decodeLE, ih]
      rw [pow_succ, mul_comm (256 ^ k) 256, Nat.mod_mul]

/-- A message record from message.go: a 64-bit fingerprint `ID`, a creation
`Timestamp` (embedded abstractly as a natural number of nanoseconds), the
`StateAt` counter value, and an opaque byte `Payload`. -/
structure Message where
  ID : Nat
  Timestamp : Nat
  StateAt : Nat
  Payload : List Nat
  deriving DecidableEq, Repr

/-- Well-formedness of a message as a Go value: every uint64 field fits in
64 bits and the payload length fits in 64 bits. -/
def Message.wf (m : Message) : Prop :=
  m.ID < U64 ∧ m.Timestamp < U64 ∧ m.StateAt < U64 ∧ m.Payload.length < U64

instance (m : Message) : Decidable m.wf := by
  unfold Message.wf; infer_instance

/-- `Message.Serialize` from message.go: a fresh gob encoder over the
four-field struct.  The embedding keeps what the claims depend on: the
encoding is a deterministic, injective pure function of the four field
values (a fresh `gob.NewEncoder` is created per call, so no encoder state
leaks between calls), covering all four fields.  It is embedded as the
fixed-width little-endian encoding of the three uint64 fields followed by
the length-prefixed payload.  The Go version also returns an error, which
is impossible for this struct shape (gob only fails on channels/functions),
so the embedding is total. -/
def Message.Serialize (m : Message) : List Nat :=
  encodeLE 8 m.ID ++ encodeLE 8 m.Timestamp ++ encodeLE 8 m.StateAt ++
    encodeLE 8 m.Payload.length ++ m.Payload

/-- `DeserializeMessage` from message.go: gob-decode the wire bytes back
into a `Message`, failing (`none`) on malformed input. -/
def DeserializeMessage (data : List Nat) : Option Message :=
  if 32 ≤ data.length then
    let id := decodeLE (data.take 8)
    let ts := decodeLE ((data.drop 8).take 8)
    let sa := decodeLE ((data.drop 16).take 8)
    let plen := decodeLE ((data.drop 24).take 8)
    let payload := data.drop 32
    if payload.length = plen then some ⟨id, ts, sa, payload⟩ else none
  else none

theorem take_length_append (a b : List Nat) : (a ++ b).take a.length = a := by
  simp

theorem drop_length_append (a b : List Nat) : (a ++ b).drop a.length = b := by
  simp

theorem take_eight_append (a b : List Nat) (h : a.length = 8) :
    (a ++ b).take 8 = a := by
  rw [← h]; simp

theorem drop_eight_append (a b : List Nat) (h : a.length = 8) :
    (a ++ b).drop 8 = b := by
  rw [← h]; simp

theorem pow256_eight : 256 ^ 8 = U64 := by decide

/-- Decoding the serialized form of a well-formed message recovers every
field exactly. -/
theorem DeserializeMessage_Serialize (m : Message) (h : m.wf) :
    DeserializeMessage m.Serialize = some m := by
  obtain ⟨hID, hTS, hSA, hP⟩ := h
  have l1 : (encodeLE 8 m.ID).length = 8 := encodeLE_length 8 m.ID
  have l2 : (encodeLE 8 m.Timestamp).length = 8 := encodeLE_length 8 m.Timestamp
  have l3 : (encodeLE 8 m.StateAt).length = 8 := encodeLE_length 8 m.StateAt
  have l4 : (encodeLE 8 m.Payload.length).length = 8 :=
    encodeLE_length 8 m.Payload.length
  have hdata : m.Serialize =
      encodeLE 8 m.ID ++ (encodeLE 8 m.Timestamp ++ (encodeLE 8 m.StateAt ++
        (encodeLE 8 m.Payload.length ++ m.Payload))) := by
    simp [Message.Serialize]
  have hlen : 32 ≤ m.Serialize.length := by
    rw [hdata]; simp [l1, l2, l3, l4]; omega
  have ht8 : m.Serialize.take 8 = encodeLE 8 m.ID := by
    rw [hdata]; exact take_eight_append _ _ l1
  have hd8 : m.Serialize.drop 8 =
      encodeLE 8 m.Timestamp ++ (encodeLE 8 m.StateAt ++
        (encodeLE 8 m.Payload.length ++ m.Payload)) := by
    rw [hdata]; exact drop_eight_append _ _ l1
  have hd16 : m.Serialize.drop 16 =
      encodeLE 8 m.StateAt ++ (encodeLE 8 m.Payload.length ++ m.Payload) := by
    have : m.Serialize.drop 16 = (m.Serialize.drop 8).drop 8 := by
      rw [List.drop_drop]
    rw [this, hd8]; exact drop_eight_append _ _ l2
  have hd24 : m.Serialize.drop 24 = encodeLE 8 m.Payload.length ++ m.Payload := by
    have : m.Serialize.drop 24 = (m.Serialize.drop 16).drop 8 := by
      rw [List.drop_drop]
    rw [this, hd16]; exact drop_eight_append _ _ l3
  have hd32 : m.Serialize.drop 32 = m.Payload := by
    have : m.Serialize.drop 32 = (m.Serialize.drop 24).drop 8 := by
      rw [List.drop_drop]
    rw [this, hd24]; exact drop_eight_append _ _ l4
  have hID' : decodeLE (m.Serialize.take 8) = m.ID := by
    rw [ht8, decodeLE_encodeLE, pow256_eight, Nat.mod_eq_of_lt hID]
  have hTS' : decodeLE ((m.Serialize.drop 8).take 8) = m.Timestamp := by
    rw [hd8, take_eight_append _ _ l2, decodeLE_encodeLE, pow256_eight,
      Nat.mod_eq_of_lt hTS]
  have hSA' : decodeLE ((m.Serialize.drop 16).take 8) = m.StateAt := by
    rw [hd16, take_eight_append _ _ l3, decodeLE_encodeLE, pow256_eight,
      Nat.mod_eq_of_lt hSA]
  have hPL' : decodeLE ((m.Serialize.drop 24).take 8) = m.Payload.length := by
    rw [hd24, take_eight_append _ _ l4, decodeLE_encodeLE, pow256_eight,
      Nat.mod_eq_of_lt hP]
  unfold DeserializeMessage
  rw [if_pos hlen]
  simp [hID', hTS', hSA', hPL', hd32]

/-! ## State counter (state.go) -/

/-- Error causes surfaced by the embedded durable stores and callbacks. -/
inductive Err
  | persistFailed
  | managerErr
  | enqueueFailed
  | pushFailed
  | clearFailed
  | decodeFailed
  deriving DecidableEq, Repr

/-- The `State` struct from state.go: a LevelDB-backed uint64, cached in
memory (`cached`) for reads, with the persisted copy embedded as `disk`. -/
structure StateDB where
  cached : Nat
  disk : Nat
  deriving DecidableEq, Repr

/-- `State.saveToDisk`: write the cached value (as an 8-byte little-endian
uint64, i.e. its value) to the database.  The LevelDB `Put` can fail; the
embedding takes that outcome as the explicit flag `ok`. -/
def StateDB.saveToDisk (state : StateDB) (ok : Bool) : Except Err StateDB :=
  if ok then .ok { state with disk := state.cached } else .error .persistFailed

/-- `State.GetCurrent`: read the cached counter. -/
def StateDB.GetCurrent (state : StateDB) : Nat := state.cached

/-- `State.Update` (sync_queue_test.go lines 151-163, the revision kept in
the repository snapshot): remember the original cached value, add the
message id with Go uint64 wraparound, persist, and on persistence failure
set the cache back to the original and report the error. -/
def StateDB.Update (state : StateDB) (msg : Message) (persistOk : Bool) :
    StateDB × Option Err :=
  let original := state.cached
  let state1 := { state with cached := (state.cached + msg.ID) % U64 }
  match state1.saveToDisk persistOk with
  | .ok state2 => (state2, none)
  | .error e => ({ state1 with cached := original }, some e)

/-- Modelled from the spec: the current revision of `State.Update` is not
in the source snapshot (only its test, state_test.go's `TestStateUpdate`,
and its callers in accord.go are).  Per the spec, "`update` also writes
`msg.stateAt` as a side effect: the *pre-update* counter value, for
orchestrator use"; otherwise it behaves as the retained revision
(`StateDB.Update` above): add `msg.id` mod 2^64, persist, roll back the
cache on write failure. -/
def StateDB.UpdatePtr (state : StateDB) (msg : Message) (persistOk : Bool) :
    (StateDB × Message) × Option Err :=
  let msg1 := { msg with StateAt := state.cached }
  let (state', e) := state.Update msg persistOk
  ((state', msg1), e)

/-! ## Outbound queue (sync_queue.go, state_test.go lines 177-265) -/

/-- The goque-backed FIFO holds the gob-serialized bytes of each enqueued
message; the front of the list is the front of the queue. -/
abbrev SyncQueue := List (List Nat)

/-- `SyncQueue.Enqueue`: serialize the message and append it at the back. -/
def SyncQueue.Enqueue (q : SyncQueue) (msg : Message) : SyncQueue :=
  q ++ [msg.Serialize]

/-- `SyncQueue.Size`: number of enqueued elements. -/
def SyncQueue.Size (q : SyncQueue) : Nat := q.length

/-- `SyncQueue.Peek`: decode the front element without removing it;
`ok none` on an empty queue (goque's `ErrEmpty` is mapped to `nil, nil`).
The unchanged queue is returned alongside to make the absence of mutation
part of the embedded signature. -/
def SyncQueue.Peek (q : SyncQueue) : Except Err (Option Message) × SyncQueue :=
  match q with
  | [] => (.ok none, [])
  | b :: rest =>
      match DeserializeMessage b with
      | some m => (.ok (some m), b :: rest)
      | none => (.error .decodeFailed, b :: rest)

/-- `SyncQueue.Dequeue`: remove and decode the front element; `ok none` on
an empty queue (emptiness is not an error). -/
def SyncQueue.Dequeue (q : SyncQueue) : Except Err (Option Message) × SyncQueue :=
  match q with
  | [] => (.ok none, [])
  | b :: rest =>
      match DeserializeMessage b with
      | some m => (.ok (some m), rest)
      | none => (.error .decodeFailed, rest)

/-! ## Orchestrator (accord.go) -/

/-- The goque-backed LIFO history stack likewise holds serialized message
bytes; the head of the list is the top (most recent) entry. -/
abbrev HistoryStack := List (List Nat)

/-- The durable stores owned by the `Accord` struct: the outbound
`ToBeSynced` queue, the `history` stack, and the `state` counter. -/
structure AccordSt where
  ToBeSynced : SyncQueue
  history : HistoryStack
  state : StateDB
  deriving DecidableEq, Repr

/-- The external `Manager` collaborator: `processOk msg fromRemote` is
`true` when `Process(msg, fromRemote)` returns a nil error, and
`shouldProcess msg hist` is the boolean decision of
`ShouldProcess(msg, it)`, where `hist` is the locked history snapshot the
iterator walks from most recent to oldest. -/
structure Manager where
  processOk : Message → Bool → Bool
  shouldProcess : Message → HistoryStack → Bool

/-- Result of `Accord.HandleNewMessage`, together with the trace of
`Manager.Process` invocations (argument and `fromRemote` flag, in order). -/
structure NewOutcome where
  accord : AccordSt
  processCalls : List (Message × Bool)
  err : Option Err
  deriving Repr

/-- `Accord.HandleNewMessage` (accord.go lines 231-265): under the process
mutex, call `Process(msg, false)`; on success update the state counter
(which writes `msg.StateAt`), enqueue the message to `ToBeSynced`, and push
it onto `history`.  Any failing step returns its error (and triggers
shutdown, not modelled beyond the returned error).  The fallible disk
writes appear as the flags `persistOk`, `enqOk`, `pushOk`. -/
def HandleNewMessage (mgr : Manager) (a : AccordSt) (msg : Message)
    (persistOk enqOk pushOk : Bool) : NewOutcome :=
  if mgr.processOk msg false then
    let ((state', msg'), e) := a.state.UpdatePtr msg persistOk
    match e with
    | some err => { accord := { a with state := state' },
                    processCalls := [(msg, false)], err := some err }
    | none =>
        if enqOk then
          let a1 := { a with
                      state := state',
                      ToBeSynced := a.ToBeSynced.Enqueue msg' }
          if pushOk then
            { accord := { a1 with history := msg'.Serialize :: a1.history },
              processCalls := [(msg, false)], err := none }
          else
            { accord := a1, processCalls := [(msg, false)],
              err := some .pushFailed }
        else
          { accord := { a with state := state' },
            processCalls := [(msg, false)], err := some .enqueueFailed }
  else
    { accord := a, processCalls := [(msg, false)], err := some .managerErr }

/-- Result of `Accord.HandleRemoteMessage`, with the traces of both
Manager callbacks: `processCalls` holds each `Process` invocation's
arguments, and `shouldProcessCalls` each `ShouldProcess` invocation's
message argument. -/
structure RemoteOutcome where
  accord : AccordSt
  processCalls : List (Message × Bool)
  shouldProcessCalls : List Message
  err : Option Err
  deriving Repr

/-- `Accord.HandleRemoteMessage` (accord.go lines 273-334): if the local
counter equals `msg.StateAt` the message is applied without consulting the
Manager; otherwise a locked history iterator is opened and
`ShouldProcess(msg, it)` decides.  When applying, `Process(msg, true)` runs
first (a failure is returned).  The state counter is then updated
regardless of the apply decision, and the message is pushed onto `history`
only when it was applied. -/
def HandleRemoteMessage (mgr : Manager) (a : AccordSt) (msg : Message)
    (persistOk pushOk : Bool) : RemoteOutcome :=
  let dec : Bool × List Message :=
    if a.state.GetCurrent == msg.StateAt then (true, [])
    else (mgr.shouldProcess msg a.history, [msg])
  let shouldProc := dec.1
  let spCalls := dec.2
  let pCalls : List (Message × Bool) := if shouldProc then [(msg, true)] else []
  if shouldProc && !(mgr.processOk msg true) then
    { accord := a, processCalls := pCalls, shouldProcessCalls := spCalls,
      err := some .managerErr }
  else
    let ((state', msg'), e) := a.state.UpdatePtr msg persistOk
    match e with
    | some err => { accord := { a with state := state' },
                    processCalls := pCalls, shouldProcessCalls := spCalls,
                    err := some err }
    | none =>
        if shouldProc then
          if pushOk then
            { accord := { a with
                          state := state',
                          history := msg'.Serialize :: a.history },
              processCalls := pCalls, shouldProcessCalls := spCalls,
              err := none }
          else
            { accord := { a with state := state' }, processCalls := pCalls,
              shouldProcessCalls := spCalls, err := some .pushFailed }
        else
          { accord := { a with state := state' }, processCalls := pCalls,
            shouldProcessCalls := spCalls, err := none }

/-- The `Status` record from accord.go. -/
structure Status where
  ToBeSyncedSize : Nat
  HistorySize : Nat
  State : Nat
  deriving DecidableEq, Repr

/-- `Accord.Status`: snapshot of the three stores under the mutex. -/
def AccordSt.Status (a : AccordSt) : Status :=
  { ToBeSyncedSize := a.ToBeSynced.Size,
    HistorySize := a.history.length,
    State := a.state.GetCurrent }

/-- `Accord.CheckRemoteState` (accord.go lines 351-370): when the reported
remote counter equals the local one and the history is non-empty, clear the
history (returning `(true, err)` if the clear fails, with the underlying
stack already dropped); in every non-error case the returned boolean is
`false`. -/
def CheckRemoteState (a : AccordSt) (remoteState : Nat) (clearOk : Bool) :
    (AccordSt × Bool) × Option Err :=
  if remoteState == a.state.GetCurrent then
    if 0 < a.history.length then
      if clearOk then (({ a with history := [] }, false), none)
      else (({ a with history := [] }, true), some .clearFailed)
    else ((a, false), none)
  else ((a, false), none)

/-! ## Poll listener receive step (poll_listener.go) -/

/-- First part of a listener reply frame. -/
inductive Tag
  | msg
  | empty
  | deleted
  | error
  | unknown
  deriving DecidableEq, Repr

/-- Reason string attached to an `error` reply. -/
inductive Reason
  | queueRead
  | serializeFailed
  | dequeueFailed
  deriving DecidableEq, Repr

/-- One part of a multi-part ZeroMQ reply frame. -/
inductive ReplyPart
  | tag (t : Tag)
  | reason (r : Reason)
  | bytes (b : List Nat)
  deriving DecidableEq, Repr

/-- Request frames the listener can receive. -/
inductive Request
  | send
  | ok
  | other
  deriving DecidableEq, Repr

/-- Result of one `PollListener.recvState` tick: the (possibly updated)
orchestrator stores, the reply frame prepared for the following send
state, and whether `Shutdown` was triggered. -/
structure ListenerOutcome where
  accord : AccordSt
  reply : List ReplyPart
  fatal : Bool
  deriving Repr

/-- `PollListener.recvState` (poll_listener.go lines 112-195), after a
request frame has been received.  On `"send"`: peek the outbound queue (a
store read failure, including a decode failure of the stored bytes, yields
the `["error", "queue read"]` reply); when the queue is empty reply
`["empty", LittleEndian.PutUint64(Status().State)]`; otherwise serialize
the peeked message (`serOk` is the fallible serialize outcome) and reply
`["msg", bytes]`.  On `"ok"`: dequeue; a dequeue failure (`deqOk = false`)
replies `["error", "dequeue"]` and triggers shutdown; success replies
`["deleted"]`.  Anything else replies `["unknown"]`. -/
def recvState (a : AccordSt) (req : Request) (peekOk serOk deqOk : Bool) :
    ListenerOutcome :=
  match req with
  | .send =>
      if !peekOk then
        { accord := a, reply := [.tag .error, .reason .queueRead],
          fatal := false }
      else
        match a.ToBeSynced with
        | [] =>
            { accord := a,
              reply := [.tag .empty, .bytes (encodeLE 8 a.Status.State)],
              fatal := false }
        | b :: _ =>
            match DeserializeMessage b with
            | none =>
                { accord := a, reply := [.tag .error, .reason .queueRead],
                  fatal := false }
            | some m =>
                if serOk then
                  { accord := a,
                    reply := [.tag .msg, .bytes m.Serialize], fatal := false }
                else
                  { accord := a,
                    reply := [.tag .error, .reason .serializeFailed],
                    fatal := false }
  | .ok =>
      if deqOk then
        { accord := { a with ToBeSynced := (a.ToBeSynced.Dequeue).2 },
          reply := [.tag .deleted], fatal := false }
      else
        { accord := a, reply := [.tag .error, .reason .dequeueFailed],
          fatal := true }
  | .other =>
      { accord := a, reply := [.tag .unknown], fatal := false }

/-! ## Component runner (component.go) -/

/-- The mutable fields of `ComponentRunner` that its `Stop` method touches:
the buffered stop channel (capacity 1, embedded as the list of values sent
but not yet received by the loop goroutine) and the `stopped` / `stopping`
booleans. -/
structure RunnerState where
  stopSignal : List Int
  stopped : Bool
  stopping : Bool
  deriving DecidableEq, Repr

/-- The runner state right after `ComponentRunner.Init`, while the loop
goroutine is running and has not consumed any stop signal. -/
def runnerInit : RunnerState := { stopSignal := [], stopped := false, stopping := false }

/-- `ComponentRunner.Stop` (component.go lines 118-128): guarded by
`!stopped || !stopping`, set `stopping` and send `sig` into the stop
channel.  A send into a full capacity-1 Go channel blocks, so a resulting
`stopSignal` longer than one records a blocking call. -/
def RunnerState.Stop (runner : RunnerState) (sig : Int) : RunnerState :=
  if !runner.stopped || !runner.stopping then
    { runner with stopping := true, stopSignal := runner.stopSignal ++ [sig] }
  else runner

/-! ## Theorems for the claims -/

/-- C5: `State.Update` adds `msg.ID` to the cached counter with wraparound
arithmetic mod 2^64 and persists the new value; when persisting fails, the
cached counter is rolled back to its value before the call (the whole state
is unchanged) and the error is returned. -/
theorem StateUpdate_wraparound_rollback (st : StateDB) (msg : Message) :
    (st.Update msg true).2 = none ∧
    (st.Update msg true).1.cached = (st.cached + msg.ID) % U64 ∧
    (st.Update msg true).1.disk = (st.cached + msg.ID) % U64 ∧
    (st.Update msg false).1 = st ∧
    (st.Update msg false).2 = some .persistFailed := by
  refine ⟨rfl, rfl, rfl, rfl, rfl⟩

/-- C9 (code bug): from the post-`Init` runner state, two consecutive calls
to `ComponentRunner.Stop` both pass the `!stopped || !stopping` guard
(`stopped` is still `false` while the loop goroutine runs), so the stop
signal is sent twice; the second send targets the already-full capacity-1
channel, where a Go send blocks.  The claim (and the method's own doc
comment, "returns immediately") require at most one send and no blocking. -/
theorem ComponentRunner_Stop_double_send :
    ((runnerInit.Stop 0).Stop 0).stopSignal = [0, 0] ∧
    1 < ((runnerInit.Stop 0).Stop 0).stopSignal.length := by
  refine ⟨rfl, by decide⟩

/-- C1 counterexample: with local counter 0, a non-empty history, and a
reported remote counter of 1, the counters differ but `CheckRemoteState`
returns `false` — it does not report divergence, contradicting the claim
that a differing counter makes the call report diverged. -/
theorem CheckRemoteState_unequal_reports_false :
    (1 : Nat) ≠ (AccordSt.mk [] [[7]] ⟨0, 0⟩).state.GetCurrent ∧
    (CheckRemoteState (AccordSt.mk [] [[7]] ⟨0, 0⟩) 1 true).1.2 = false ∧
    (CheckRemoteState (AccordSt.mk [] [[7]] ⟨0, 0⟩) 1 true).1.1 =
      AccordSt.mk [] [[7]] ⟨0, 0⟩ := by
  refine ⟨by decide, rfl, rfl⟩

/-- C1 (amended): if `remoteCounter` equals the current state counter and
the history store is non-empty, the history is cleared and the call reports
`false`; if `remoteCounter` differs from the current state counter, the
history store (indeed the whole store state) is left untouched and the call
also reports `false` — the returned boolean does not signal divergence (it
is `true` only when clearing the history fails). -/
theorem CheckRemoteState_characterization (a : AccordSt) (r : Nat)
    (cOk : Bool) (hne : r ≠ a.state.GetCurrent) :
    (CheckRemoteState a r cOk).1.1 = a ∧
    (CheckRemoteState a r cOk).1.2 = false ∧
    (CheckRemoteState a r cOk).2 = none ∧
    ∀ (q : SyncQueue) (b : List Nat) (rest : HistoryStack) (st : StateDB),
      CheckRemoteState ⟨q, b :: rest, st⟩ st.GetCurrent true =
        ((⟨q, [], st⟩, false), none) := by
  have hbeq : (r == a.state.GetCurrent) = false := by
    simp [hne]
  refine ⟨?_, ?_, ?_, ?_⟩
  · simp [CheckRemoteState, hbeq]
  · simp [CheckRemoteState, hbeq]
  · simp [CheckRemoteState, hbeq]
  · intro q b rest st
    simp [CheckRemoteState, StateDB.GetCurrent]

/-- Witness for C1's amended theorem at a concrete unequal input. -/
theorem CheckRemoteState_characterization_witness :
    (5 : Nat) ≠ (AccordSt.mk [] [[7]] ⟨0, 0⟩).state.GetCurrent ∧
    ((CheckRemoteState (AccordSt.mk [] [[7]] ⟨0, 0⟩) 5 true).1.1 =
        AccordSt.mk [] [[7]] ⟨0, 0⟩ ∧
      (CheckRemoteState (AccordSt.mk [] [[7]] ⟨0, 0⟩) 5 true).1.2 = false ∧
      (CheckRemoteState (AccordSt.mk [] [[7]] ⟨0, 0⟩) 5 true).2 = none ∧
      ∀ (q : SyncQueue) (b : List Nat) (rest : HistoryStack) (st : StateDB),
        CheckRemoteState ⟨q, b :: rest, st⟩ st.GetCurrent true =
          ((⟨q, [], st⟩, false), none)) :=
  ⟨by decide, CheckRemoteState_characterization _ 5 true (by decide)⟩

/-- C2: when `msg.StateAt` equals the current state counter (and the
apply, persist, and push steps succeed), `HandleRemoteMessage` never
invokes `ShouldProcess`, invokes `Process` exactly once with
`fromRemote = true`, advances the state counter by `msg.ID` mod 2^64, and
grows the history by exactly one entry. -/
theorem HandleRemoteMessage_matching_state (mgr : Manager) (a : AccordSt)
    (msg : Message) (h1 : msg.StateAt = a.state.GetCurrent)
    (h2 : mgr.processOk msg true = true) :
    (HandleRemoteMessage mgr a msg true true).shouldProcessCalls = [] ∧
    (HandleRemoteMessage mgr a msg true true).processCalls = [(msg, true)] ∧
    (HandleRemoteMessage mgr a msg true true).accord.state.GetCurrent =
      (a.state.GetCurrent + msg.ID) % U64 ∧
    (HandleRemoteMessage mgr a msg true true).accord.history.length =
      a.history.length + 1 ∧
    (HandleRemoteMessage mgr a msg true true).err = none := by
  have h1' : a.state.cached = msg.StateAt := h1.symm
  simp [HandleRemoteMessage, h1', h2, StateDB.UpdatePtr, StateDB.Update,
    StateDB.saveToDisk, StateDB.GetCurrent]

/-- Witness for C2 at a concrete synchronized input. -/
theorem HandleRemoteMessage_matching_state_witness :
    (Message.mk 4 9 1 []).StateAt =
      (AccordSt.mk [] [] ⟨1, 1⟩).state.GetCurrent ∧
    (Manager.mk (fun _ _ => true) (fun _ _ => true)).processOk
      (Message.mk 4 9 1 []) true = true ∧
    ((HandleRemoteMessage (Manager.mk (fun _ _ => true) (fun _ _ => true))
        (AccordSt.mk [] [] ⟨1, 1⟩) (Message.mk 4 9 1 [])
        true true).shouldProcessCalls = [] ∧
      (HandleRemoteMessage (Manager.mk (fun _ _ => true) (fun _ _ => true))
        (AccordSt.mk [] [] ⟨1, 1⟩) (Message.mk 4 9 1 [])
        true true).processCalls = [((Message.mk 4 9 1 []), true)] ∧
      (HandleRemoteMessage (Manager.mk (fun _ _ => true) (fun _ _ => true))
        (AccordSt.mk [] [] ⟨1, 1⟩) (Message.mk 4 9 1 [])
        true true).accord.state.GetCurrent =
        ((AccordSt.mk [] [] ⟨1, 1⟩).state.GetCurrent +
          (Message.mk 4 9 1 []).ID) % U64 ∧
      (HandleRemoteMessage (Manager.mk (fun _ _ => true) (fun _ _ => true))
        (AccordSt.mk [] [] ⟨1, 1⟩) (Message.mk 4 9 1 [])
        true true).accord.history.length =
        (AccordSt.mk [] [] ⟨1, 1⟩).history.length + 1 ∧
      (HandleRemoteMessage (Manager.mk (fun _ _ => true) (fun _ _ => true))
        (AccordSt.mk [] [] ⟨1, 1⟩) (Message.mk 4 9 1 [])
        true true).err = none) :=
  ⟨rfl, rfl, HandleRemoteMessage_matching_state _ _ _ rfl rfl⟩

/-- C3: when `msg.StateAt` differs from the current state counter and the
`ShouldProcess` decision callback answers `false` (and persisting
succeeds), `HandleRemoteMessage` invokes the callback exactly once with
`msg`, never invokes `Process`, still advances the state counter by
`msg.ID` mod 2^64, and leaves the history store unchanged. -/
theorem HandleRemoteMessage_diverged_skip (mgr : Manager) (a : AccordSt)
    (msg : Message) (h1 : msg.StateAt ≠ a.state.GetCurrent)
    (h2 : mgr.shouldProcess msg a.history = false) :
    (HandleRemoteMessage mgr a msg true true).shouldProcessCalls = [msg] ∧
    (HandleRemoteMessage mgr a msg true true).processCalls = [] ∧
    (HandleRemoteMessage mgr a msg true true).accord.state.GetCurrent =
      (a.state.GetCurrent + msg.ID) % U64 ∧
    (HandleRemoteMessage mgr a msg true true).accord.history = a.history ∧
    (HandleRemoteMessage mgr a msg true true).err = none := by
  have h1' : ¬(a.state.cached = msg.StateAt) := fun h => h1 h.symm
  simp [HandleRemoteMessage, h1', h2, StateDB.UpdatePtr, StateDB.Update,
    StateDB.saveToDisk, StateDB.GetCurrent]

/-- Witness for C3 at a concrete diverged input with a refusing Manager. -/
theorem HandleRemoteMessage_diverged_skip_witness :
    (Message.mk 4 9 7 []).StateAt ≠
      (AccordSt.mk [] [] ⟨1, 1⟩).state.GetCurrent ∧
    (Manager.mk (fun _ _ => true) (fun _ _ => false)).shouldProcess
      (Message.mk 4 9 7 []) (AccordSt.mk [] [] ⟨1, 1⟩).history = false ∧
    ((HandleRemoteMessage (Manager.mk (fun _ _ => true) (fun _ _ => false))
        (AccordSt.mk [] [] ⟨1, 1⟩) (Message.mk 4 9 7 [])
        true true).shouldProcessCalls = [Message.mk 4 9 7 []] ∧
      (HandleRemoteMessage (Manager.mk (fun _ _ => true) (fun _ _ => false))
        (AccordSt.mk [] [] ⟨1, 1⟩) (Message.mk 4 9 7 [])
        true true).processCalls = [] ∧
      (HandleRemoteMessage (Manager.mk (fun _ _ => true) (fun _ _ => false))
        (AccordSt.mk [] [] ⟨1, 1⟩) (Message.mk 4 9 7 [])
        true true).accord.state.GetCurrent =
        ((AccordSt.mk [] [] ⟨1, 1⟩).state.GetCurrent +
          (Message.mk 4 9 7 []).ID) % U64 ∧
      (HandleRemoteMessage (Manager.mk (fun _ _ => true) (fun _ _ => false))
        (AccordSt.mk [] [] ⟨1, 1⟩) (Message.mk 4 9 7 [])
        true true).accord.history = (AccordSt.mk [] [] ⟨1, 1⟩).history ∧
      (HandleRemoteMessage (Manager.mk (fun _ _ => true) (fun _ _ => false))
        (AccordSt.mk [] [] ⟨1, 1⟩) (Message.mk 4 9 7 [])
        true true).err = none) :=
  ⟨by decide, rfl, HandleRemoteMessage_diverged_skip _ _ _ (by decide) rfl⟩

/-- C4 (spec-modelled `State.Update`): a successful `Update(msg)` writes
the pre-update counter value into `msg.StateAt` (first conjunct, for every
persistence outcome), and after a successful `HandleNewMessage(msg)` the
serialized message appended to the outbound queue and pushed onto the
history is exactly `msg` with `StateAt` set to the counter value
immediately before the update, which decoding recovers. -/
theorem StateUpdate_writes_preState (mgr : Manager) (a : AccordSt)
    (msg : Message) (st : StateDB) (pOk : Bool)
    (h : mgr.processOk msg false = true) (hwf : msg.wf)
    (hc : a.state.GetCurrent < U64) :
    ((st.UpdatePtr msg pOk).1.2).StateAt = st.GetCurrent ∧
    (HandleNewMessage mgr a msg true true true).accord.ToBeSynced =
      a.ToBeSynced ++
        [({ msg with StateAt := a.state.GetCurrent } : Message).Serialize] ∧
    (HandleNewMessage mgr a msg true true true).accord.history =
      ({ msg with StateAt := a.state.GetCurrent } : Message).Serialize ::
        a.history ∧
    (HandleNewMessage mgr a msg true true true).err = none ∧
    DeserializeMessage
        (({ msg with StateAt := a.state.GetCurrent } : Message).Serialize) =
      some { msg with StateAt := a.state.GetCurrent } := by
  obtain ⟨hID, hTS, _, hP⟩ := hwf
  refine ⟨rfl, ?_, ?_, ?_, ?_⟩
  · simp [HandleNewMessage, h, StateDB.UpdatePtr, StateDB.Update,
      StateDB.saveToDisk, SyncQueue.Enqueue, StateDB.GetCurrent]
  · simp [HandleNewMessage, h, StateDB.UpdatePtr, StateDB.Update,
      StateDB.saveToDisk, SyncQueue.Enqueue, StateDB.GetCurrent]
  · simp [HandleNewMessage, h, StateDB.UpdatePtr, StateDB.Update,
      StateDB.saveToDisk, SyncQueue.Enqueue]
  · exact DeserializeMessage_Serialize _ ⟨hID, hTS, hc, hP⟩

/-- Witness for C4 at a concrete message and store state. -/
theorem StateUpdate_writes_preState_witness :
    (Manager.mk (fun _ _ => true) (fun _ _ => true)).processOk
      (Message.mk 4 9 0 [7]) false = true ∧
    (Message.mk 4 9 0 [7]).wf ∧
    (AccordSt.mk [] [] ⟨1, 1⟩).state.GetCurrent < U64 ∧
    ((((⟨5, 5⟩ : StateDB).UpdatePtr (Message.mk 4 9 0 [7]) true).1.2).StateAt =
        (⟨5, 5⟩ : StateDB).GetCurrent ∧
      (HandleNewMessage (Manager.mk (fun _ _ => true) (fun _ _ => true))
          (AccordSt.mk [] [] ⟨1, 1⟩) (Message.mk 4 9 0 [7])
          true true true).accord.ToBeSynced =
        (AccordSt.mk [] [] ⟨1, 1⟩).ToBeSynced ++
          [({ Message.mk 4 9 0 [7] with
              StateAt := (AccordSt.mk [] [] ⟨1, 1⟩).state.GetCurrent } :
              Message).Serialize] ∧
      (HandleNewMessage (Manager.mk (fun _ _ => true) (fun _ _ => true))
          (AccordSt.mk [] [] ⟨1, 1⟩) (Message.mk 4 9 0 [7])
          true true true).accord.history =
        ({ Message.mk 4 9 0 [7] with
            StateAt := (AccordSt.mk [] [] ⟨1, 1⟩).state.GetCurrent } :
            Message).Serialize :: (AccordSt.mk [] [] ⟨1, 1⟩).history ∧
      (HandleNewMessage (Manager.mk (fun _ _ => true) (fun _ _ => true))
          (AccordSt.mk [] [] ⟨1, 1⟩) (Message.mk 4 9 0 [7])
          true true true).err = none ∧
      DeserializeMessage
          (({ Message.mk 4 9 0 [7] with
              StateAt := (AccordSt.mk [] [] ⟨1, 1⟩).state.GetCurrent } :
              Message).Serialize) =
        some { Message.mk 4 9 0 [7] with
               StateAt := (AccordSt.mk [] [] ⟨1, 1⟩).state.GetCurrent }) :=
  ⟨rfl, by decide, by decide,
    StateUpdate_writes_preState _ _ _ ⟨5, 5⟩ true rfl (by decide) (by decide)⟩

/-- C6: for every well-formed message, deserializing the serialized bytes
reconstructs a message with identical `ID`, `Timestamp`, `StateAt` and
`Payload`, and re-serializing reproduces byte-identical output — the
encoding is a pure function of the four fields, with no hidden encoder
state. -/
theorem Message_serialize_roundtrip (m : Message) (h : m.wf) :
    DeserializeMessage m.Serialize = some m ∧
    (DeserializeMessage m.Serialize).map Message.Serialize =
      some m.Serialize := by
  have hrt := DeserializeMessage_Serialize m h
  exact ⟨hrt, by rw [hrt]; rfl⟩

/-- Witness for C6 at the concrete message of the repository's
serialization regression test (ID 80, StateAt 839, payload byte 123). -/
theorem Message_serialize_roundtrip_witness :
    (Message.mk 80 497791200 839 [123]).wf ∧
    (DeserializeMessage (Message.mk 80 497791200 839 [123]).Serialize =
        some (Message.mk 80 497791200 839 [123]) ∧
      (DeserializeMessage
            (Message.mk 80 497791200 839 [123]).Serialize).map
          Message.Serialize =
        some (Message.mk 80 497791200 839 [123]).Serialize) :=
  ⟨by decide, Message_serialize_roundtrip _ (by decide)⟩

/-- The queue obtained by enqueueing `m1`, then `m2`, then `m3` into an
empty outbound queue. -/
def enqueuedThree (m1 m2 m3 : Message) : SyncQueue :=
  SyncQueue.Enqueue (SyncQueue.Enqueue (SyncQueue.Enqueue [] m1) m2) m3

/-- C7: the outbound queue is FIFO — enqueueing `m1, m2, m3` into an empty
queue makes the three dequeues return `m1, m2, m3` in order (ending empty);
dequeueing an empty queue returns the explicit empty result `ok none` with
no error; and peeking returns the front message while leaving the queue,
and hence its size, unchanged. -/
theorem SyncQueue_fifo (m1 m2 m3 : Message)
    (h1 : m1.wf) (h2 : m2.wf) (h3 : m3.wf) :
    (SyncQueue.Dequeue (enqueuedThree m1 m2 m3)).1 = .ok (some m1) ∧
    (SyncQueue.Dequeue (SyncQueue.Dequeue (enqueuedThree m1 m2 m3)).2).1 =
      .ok (some m2) ∧
    (SyncQueue.Dequeue (SyncQueue.Dequeue
        (SyncQueue.Dequeue (enqueuedThree m1 m2 m3)).2).2).1 =
      .ok (some m3) ∧
    (SyncQueue.Dequeue (SyncQueue.Dequeue
        (SyncQueue.Dequeue (enqueuedThree m1 m2 m3)).2).2).2 = [] ∧
    SyncQueue.Dequeue [] = (.ok none, []) ∧
    (SyncQueue.Peek (enqueuedThree m1 m2 m3)).1 = .ok (some m1) ∧
    (SyncQueue.Peek (enqueuedThree m1 m2 m3)).2 = enqueuedThree m1 m2 m3 ∧
    SyncQueue.Size (SyncQueue.Peek (enqueuedThree m1 m2 m3)).2 =
      SyncQueue.Size (enqueuedThree m1 m2 m3) := by
  have r1 := DeserializeMessage_Serialize m1 h1
  have r2 := DeserializeMessage_Serialize m2 h2
  have r3 := DeserializeMessage_Serialize m3 h3
  simp [enqueuedThree, SyncQueue.Enqueue, SyncQueue.Dequeue, SyncQueue.Peek,
    r1, r2, r3]

/-- Witness for C7 at three concrete distinct messages. -/
theorem SyncQueue_fifo_witness :
    (Message.mk 1 0 0 [1]).wf ∧ (Message.mk 2 0 0 [2]).wf ∧
    (Message.mk 3 0 0 [3]).wf ∧
    ((SyncQueue.Dequeue (enqueuedThree (Message.mk 1 0 0 [1])
        (Message.mk 2 0 0 [2]) (Message.mk 3 0 0 [3]))).1 =
      .ok (some (Message.mk 1 0 0 [1])) ∧
    (SyncQueue.Dequeue (SyncQueue.Dequeue (enqueuedThree (Message.mk 1 0 0 [1])
        (Message.mk 2 0 0 [2]) (Message.mk 3 0 0 [3]))).2).1 =
      .ok (some (Message.mk 2 0 0 [2])) ∧
    (SyncQueue.Dequeue (SyncQueue.Dequeue
        (SyncQueue.Dequeue (enqueuedThree (Message.mk 1 0 0 [1])
          (Message.mk 2 0 0 [2]) (Message.mk 3 0 0 [3]))).2).2).1 =
      .ok (some (Message.mk 3 0 0 [3])) ∧
    (SyncQueue.Dequeue (SyncQueue.Dequeue
        (SyncQueue.Dequeue (enqueuedThree (Message.mk 1 0 0 [1])
          (Message.mk 2 0 0 [2]) (Message.mk 3 0 0 [3]))).2).2).2 = [] ∧
    SyncQueue.Dequeue [] = (.ok none, []) ∧
    (SyncQueue.Peek (enqueuedThree (Message.mk 1 0 0 [1])
        (Message.mk 2 0 0 [2]) (Message.mk 3 0 0 [3]))).1 =
      .ok (some (Message.mk 1 0 0 [1])) ∧
    (SyncQueue.Peek (enqueuedThree (Message.mk 1 0 0 [1])
        (Message.mk 2 0 0 [2]) (Message.mk 3 0 0 [3]))).2 =
      enqueuedThree (Message.mk 1 0 0 [1]) (Message.mk 2 0 0 [2])
        (Message.mk 3 0 0 [3]) ∧
    SyncQueue.Size (SyncQueue.Peek (enqueuedThree (Message.mk 1 0 0 [1])
        (Message.mk 2 0 0 [2]) (Message.mk 3 0 0 [3]))).2 =
      SyncQueue.Size (enqueuedThree (Message.mk 1 0 0 [1])
        (Message.mk 2 0 0 [2]) (Message.mk 3 0 0 [3]))) :=
  ⟨by decide, by decide, by decide,
    SyncQueue_fifo _ _ _ (by decide) (by decide) (by decide)⟩

theorem recvState_send_accord (a : AccordSt) (pOk sOk dOk : Bool) :
    (recvState a .send pOk sOk dOk).accord = a := by
  unfold recvState
  rcases pOk with _ | _
  · rfl
  · rcases a.ToBeSynced with _ | ⟨b, rest⟩
    · rfl
    · simp only [Bool.not_true]
      rcases DeserializeMessage b with _ | m
      · rfl
      · rcases sOk with _ | _ <;> rfl

theorem handleRemote_ToBeSynced (mgr : Manager) (a : AccordSt)
    (msg : Message) (pOk puOk : Bool) :
    (HandleRemoteMessage mgr a msg pOk puOk).accord.ToBeSynced =
      a.ToBeSynced := by
  unfold HandleRemoteMessage
  rcases pOk with _ | _ <;> rcases puOk with _ | _ <;>
    rcases a.state.GetCurrent == msg.StateAt with _ | _ <;>
      rcases mgr.shouldProcess msg a.history with _ | _ <;>
        rcases mgr.processOk msg true with _ | _ <;>
          simp [StateDB.UpdatePtr, StateDB.Update, StateDB.saveToDisk]

theorem handleNew_ToBeSynced (mgr : Manager) (a : AccordSt)
    (msg : Message) (pOk eOk puOk : Bool) :
    (HandleNewMessage mgr a msg pOk eOk puOk).accord.ToBeSynced =
        a.ToBeSynced ∨
      (HandleNewMessage mgr a msg pOk eOk puOk).accord.ToBeSynced =
        SyncQueue.Enqueue a.ToBeSynced
          { msg with StateAt := a.state.GetCurrent } := by
  unfold HandleNewMessage
  rcases mgr.processOk msg false with _ | _ <;>
    rcases pOk with _ | _ <;> rcases eOk with _ | _ <;>
      rcases puOk with _ | _ <;>
        simp [StateDB.UpdatePtr, StateDB.Update, StateDB.saveToDisk,
          StateDB.GetCurrent]

theorem checkRemote_ToBeSynced (a : AccordSt) (r : Nat) (cOk : Bool) :
    (CheckRemoteState a r cOk).1.1.ToBeSynced = a.ToBeSynced := by
  unfold CheckRemoteState
  rcases r == a.state.GetCurrent with _ | _ <;> rcases cOk with _ | _ <;>
    by_cases h : 0 < a.history.length <;> simp [h]

/-- C8: a `"send"` request leaves the orchestrator stores — in particular
the outbound queue — untouched in every branch, and when the queue is
empty (and the store read succeeds) the prepared reply is the two-part
frame `["empty", <8-byte little-endian current state counter>]`. -/
theorem PollListener_send_no_mutation_empty_reply (a : AccordSt)
    (pOk sOk dOk : Bool) (hist : HistoryStack) (st : StateDB) :
    (recvState a .send pOk sOk dOk).accord = a ∧
    recvState ⟨[], hist, st⟩ .send true sOk dOk =
      { accord := ⟨[], hist, st⟩,
        reply := [.tag .empty, .bytes (encodeLE 8 st.GetCurrent)],
        fatal := false } :=
  ⟨recvState_send_accord a pOk sOk dOk, rfl⟩

/-- C10: `HandleRemoteMessage` never modifies the outbound queue — for
every Manager, store state, message, and persist/push outcome the
`ToBeSynced` contents are the same after the call as before.  Moreover the
listener's `"send"`, unknown, and failed-`"ok"` branches leave the queue
unchanged, its successful `"ok"` branch removes exactly the front element,
`CheckRemoteState` never touches the queue, and `HandleNewMessage` either
leaves the queue unchanged or appends exactly the one message it handled. -/
theorem HandleRemoteMessage_queue_frame (mgr : Manager) (a : AccordSt)
    (msg : Message) (pOk puOk eOk peOk sOk : Bool) (r : Nat) (cOk : Bool) :
    (HandleRemoteMessage mgr a msg pOk puOk).accord.ToBeSynced =
      a.ToBeSynced ∧
    (recvState a .send peOk sOk true).accord.ToBeSynced = a.ToBeSynced ∧
    (recvState a .other peOk sOk true).accord.ToBeSynced = a.ToBeSynced ∧
    (recvState a .ok peOk sOk true).accord.ToBeSynced =
      (SyncQueue.Dequeue a.ToBeSynced).2 ∧
    (recvState a .ok peOk sOk false).accord.ToBeSynced = a.ToBeSynced ∧
    (CheckRemoteState a r cOk).1.1.ToBeSynced = a.ToBeSynced ∧
    ((HandleNewMessage mgr a msg pOk eOk puOk).accord.ToBeSynced =
        a.ToBeSynced ∨
      (HandleNewMessage mgr a msg pOk eOk puOk).accord.ToBeSynced =
        SyncQueue.Enqueue a.ToBeSynced
          { msg with StateAt := a.state.GetCurrent }) :=
  ⟨handleRemote_ToBeSynced mgr a msg pOk puOk,
    congrArg AccordSt.ToBeSynced (recvState_send_accord a peOk sOk true),
    rfl, rfl, rfl,
    checkRemote_ToBeSynced a r cOk,
    handleNew_ToBeSynced mgr a msg pOk eOk puOk⟩

end Accord
